import Mathlib

/-!
Verification of the deployment orchestrator in `deploy.py` (mango-jupyter).

The script is shallowly embedded: pure fragments (configuration
completeness, TOML dump/load structure, unit-file rendering) become Lean
functions; the effectful orchestrator `main` becomes a function from the
command-line flags, an observed world state and the interactive answers to
the list of external actions it performs.  File writes are modelled by an
explicit operation list interpreted over an association-list file store.
-/

namespace Deploy

/-- The `container` table of the configuration
(`config["container"]` in `deploy.py`). -/
structure ContainerConfig where
  image_name : String
  port : Int
  deriving Repr, DecidableEq

/-- The partial configuration as returned by `load_config`: a TOML dict in
which any field may be absent.  A present-but-empty string models a falsy
value the same way Python's `not` does. -/
structure PartialConfig where
  ai_api_key : Option String
  ai_base_url : Option String
  ai_model : Option String
  paths_notebooks_dir : Option String
  container : Option ContainerConfig
  deriving Repr, DecidableEq

/-- The empty dict `{}` that `load_config` returns when no config file
exists, and that `main` passes to `prompt_config` when not reconfiguring. -/
def emptyPartial : PartialConfig :=
  { ai_api_key := none, ai_base_url := none, ai_model := none,
    paths_notebooks_dir := none, container := none }

/-- Python truthiness of `config.get(...).get(...)`: a missing key or an
empty string is falsy. -/
def falsy : Option String → Bool
  | none => true
  | some s => s = ""

/-- `is_config_complete` from `deploy.py` (lines 79-88): collects the
human-readable names of the missing mandatory fields, in source order. -/
def is_config_complete (config : PartialConfig) : Bool × List String :=
  let missing :=
    (if falsy config.ai_api_key then ["AI API key"] else []) ++
    (if falsy config.ai_base_url then ["AI API base URL"] else []) ++
    (if falsy config.paths_notebooks_dir then ["Notebooks directory"] else [])
  (missing.length = 0, missing)

/-- `DEFAULTS["container"]` from `deploy.py`. -/
def defaultContainer : ContainerConfig :=
  { image_name := "localhost/jupyter-lab:latest", port := 8888 }

/-- `DEFAULTS["ai"]["base_url"]`. -/
def defaultBaseUrl : String := "https://api.z.ai/v1"

/-- `DEFAULTS["ai"]["model"]`. -/
def defaultModel : String := "glm-4-flash"

/-- `DEFAULTS["paths"]["notebooks_dir"]`, a function of the home
directory (`Path.home() / "Documents" / "jupyter"`). -/
def defaultNotebooksDir (home : String) : String :=
  home ++ "/Documents/jupyter"

/-- A fully populated configuration, the shape `prompt_config` returns and
the shape `install_systemd_service` indexes into. -/
structure FullConfig where
  api_key : String
  base_url : String
  model : String
  notebooks_dir : String
  container : ContainerConfig
  deriving Repr, DecidableEq

/-- View of a full configuration as a TOML dict. -/
def FullConfig.toPartial (c : FullConfig) : PartialConfig :=
  { ai_api_key := some c.api_key, ai_base_url := some c.base_url,
    ai_model := some c.model, paths_notebooks_dir := some c.notebooks_dir,
    container := some c.container }

/-! ## TOML persistence (`load_config` / `save_config`)

`save_config` serializes the configuration dict with `tomli_w.dump`;
`load_config` parses it back with `tomllib.load`.  The document is
embedded at the level of the TOML abstract syntax (named tables of
string/integer scalars); the byte-level quoting performed by the external
TOML library is outside the repository's code. -/

/-- A TOML scalar as used by this configuration (strings and integers). -/
inductive TomlValue
  | str (s : String)
  | int (n : Int)
  deriving Repr, DecidableEq

/-- A TOML table: ordered key/value pairs. -/
abbrev TomlTable := List (String × TomlValue)

/-- A TOML document: ordered named tables. -/
abbrev TomlDoc := List (String × TomlTable)

/-- The document `save_config` hands to the TOML writer: the dict shape
built by `prompt_config` (lines 133-143 of `deploy.py`). -/
def dumpConfig (c : FullConfig) : TomlDoc :=
  [("ai", [("api_key", .str c.api_key), ("base_url", .str c.base_url),
           ("model", .str c.model)]),
   ("paths", [("notebooks_dir", .str c.notebooks_dir)]),
   ("container", [("image_name", .str c.container.image_name),
                  ("port", .int c.container.port)])]

/-- `config.get(section, {}).get(key)` on a parsed document. -/
def docLookup (doc : TomlDoc) (sec key : String) : Option TomlValue :=
  match List.lookup sec doc with
  | none => none
  | some t => List.lookup key t

/-- Project a looked-up value to a string, as the consuming code expects. -/
def asStr : Option TomlValue → Option String
  | some (.str s) => some s
  | _ => none

/-- Project a looked-up value to an integer. -/
def asInt : Option TomlValue → Option Int
  | some (.int n) => some n
  | _ => none

/-- The configuration view of a loaded document: every access path the
script performs on the result of `load_config`. -/
def docToPartial (doc : TomlDoc) : PartialConfig :=
  { ai_api_key := asStr (docLookup doc "ai" "api_key")
    ai_base_url := asStr (docLookup doc "ai" "base_url")
    ai_model := asStr (docLookup doc "ai" "model")
    paths_notebooks_dir := asStr (docLookup doc "paths" "notebooks_dir")
    container :=
      match asStr (docLookup doc "container" "image_name"),
            asInt (docLookup doc "container" "port") with
      | some i, some p => some { image_name := i, port := p }
      | _, _ => none }

/-! ## The filesystem effect of `save_config` (C2)

`save_config` runs `CONFIG_DIR.mkdir(parents=True, exist_ok=True)` and then
`open(CONFIG_FILE, "wb")` followed by `tomli_w.dump(config, f)`: the target
file itself is truncated on open and written progressively.  The operations
are embedded explicitly and interpreted over a file store, so that both a
completed and a mid-write-failed save can be examined. -/

/-- `CONFIG_DIR = Path.home() / ".config" / "jupyter-lab"`. -/
def configDirPath (home : String) : String := home ++ "/.config/jupyter-lab"

/-- `CONFIG_FILE = CONFIG_DIR / "config.toml"`. -/
def configFilePath (home : String) : String := configDirPath home ++ "/config.toml"

/-- Render a TOML scalar (no characters needing escapes in this model;
escaping is the external writer's concern). -/
def renderValue : TomlValue → String
  | .str s => "\"" ++ s ++ "\""
  | .int n => toString n

/-- Render a table body, one `key = value` line per entry. -/
def renderTable (t : TomlTable) : String :=
  String.join (t.map (fun kv => kv.1 ++ " = " ++ renderValue kv.2 ++ "\n"))

/-- Render a document: bracketed section headers followed by their lines. -/
def renderDoc (d : TomlDoc) : String :=
  String.intercalate "\n" (d.map (fun st => "[" ++ st.1 ++ "]\n" ++ renderTable st.2))

/-- A filesystem operation observable during a save. -/
inductive FsOp
  | mkdirP (path : String)
  | openTrunc (path : String)
  | write (path : String) (data : String)
  | rename (src dst : String)
  deriving Repr, DecidableEq

/-- Whether the operation is an atomic-replace rename. -/
def FsOp.isRename : FsOp → Bool
  | .rename _ _ => true
  | _ => false

/-- The paths an operation touches. -/
def FsOp.paths : FsOp → List String
  | .mkdirP p => [p]
  | .openTrunc p => [p]
  | .write p _ => [p]
  | .rename s d => [s, d]

/-- The exact operation sequence of `save_config` (lines 72-76):
create the config directory, truncate the target file, write the
serialization into it.  No temporary path, no rename. -/
def save_config_ops (home : String) (c : FullConfig) : List FsOp :=
  [.mkdirP (configDirPath home),
   .openTrunc (configFilePath home),
   .write (configFilePath home) (renderDoc (dumpConfig c))]

/-- A file store: paths mapped to contents (first match wins). -/
abbrev FileStore := List (String × String)

/-- Look up a file's content. -/
def storeGet (fs : FileStore) (p : String) : Option String :=
  (List.find? (fun e => e.1 == p) fs).map (fun e => e.2)

/-- Set a file's content. -/
def storeSet (fs : FileStore) (p v : String) : FileStore := (p, v) :: fs

/-- Interpret one operation over the store. -/
def applyOp (fs : FileStore) : FsOp → FileStore
  | .mkdirP _ => fs
  | .openTrunc p => storeSet fs p ""
  | .write p d => storeSet fs p ((storeGet fs p).getD "" ++ d)
  | .rename src dst =>
      match storeGet fs src with
      | some v => storeSet fs dst v
      | none => fs

/-- Interpret a completed operation sequence. -/
def runOps (fs : FileStore) (ops : List FsOp) : FileStore := ops.foldl applyOp fs

/-- Truncate a write's payload to its first `n` bytes (the part that made
it to disk before the failure). -/
def truncOp (n : Nat) : FsOp → FsOp
  | .write p d => .write p (d.take n)
  | op => op

/-- Interpret a sequence that fails during operation number `k` after `n`
characters of that operation's payload: the earlier operations completed,
the failing one is truncated, the rest never run. -/
def runOpsFail (fs : FileStore) (ops : List FsOp) (k n : Nat) : FileStore :=
  runOps fs (ops.take k ++ ((ops.drop k).take 1).map (truncOp n))

/-- A concrete complete configuration used in counterexamples. -/
def cfgX : FullConfig :=
  { api_key := "X", base_url := "U", model := "M", notebooks_dir := "/n",
    container := { image_name := "I", port := 8888 } }

/-- A second concrete complete configuration (the valid prior one). -/
def cfgOld : FullConfig :=
  { api_key := "OLDKEY", base_url := "OLDURL", model := "OLDM",
    notebooks_dir := "/old", container := { image_name := "OLDI", port := 1 } }

/-! ## Template copying (`copy_jupyter_config`, C3)

The live configuration area and the template area are finite maps from
slash-joined relative paths to file contents.  `copy_jupyter_config`
copies each of two single template files only when the destination is
absent, then runs `shutil.copytree(ipython_src, ipython_dest,
dirs_exist_ok=True)`, whose semantics copy every source file over the
destination, overwriting files at matching paths while tolerating
pre-existing directories. -/

/-- A directory tree: relative path to content, first match wins. -/
abbrev Tree := List (String × String)

/-- Look up a file in a tree. -/
def treeGet (t : Tree) (p : String) : Option String :=
  (List.find? (fun e => e.1 == p) t).map (fun e => e.2)

/-- One single-file template copy: `if not dest.exists() and src.exists():
shutil.copy2(src, dest)`. -/
def copyIfAbsent (tmpl cfg : Tree) (name : String) : Tree :=
  match treeGet cfg name, treeGet tmpl name with
  | none, some content => (name, content) :: cfg
  | _, _ => cfg

/-- Path-prefix test on the underlying character lists (the model's
`str.startswith`). -/
def strStartsWith (s pre : String) : Bool := pre.data.isPrefixOf s.data

/-- Whether a template entry lies in the `ipython` subtree. -/
def inIpython (e : String × String) : Bool := strStartsWith e.1 "ipython/"

/-- `copy_jupyter_config` (lines 227-256): the two guarded single-file
copies, then — when the template `ipython` directory exists — the
recursive `copytree` merge, in which source files overwrite destination
files at matching paths and all other destination files persist. -/
def copy_jupyter_config_fs (tmpl cfg : Tree) : Tree :=
  let cfg1 := copyIfAbsent tmpl cfg "jupyter_lab_config.py"
  let cfg2 := copyIfAbsent tmpl cfg1 "ipython_kernel_config.py"
  if tmpl.any inIpython then tmpl.filter inIpython ++ cfg2 else cfg2

/-! ## The systemd unit rendered by `install_systemd_service` (C7, C9)

The f-string of lines 263-294 is embedded line by line; the full text is
the newline join of the lines.  The run target and the mount sources are
recovered from the rendered lines by parsing, not assumed. -/

/-- The lines of the unit file `install_systemd_service` writes, as a pure
function of the configuration. -/
def serviceLines (config : FullConfig) : List String :=
  ["[Unit]",
   "Description=Jupyter Lab Container",
   "After=network-online.target",
   "Wants=network-online.target",
   "",
   "[Service]",
   "Type=simple",
   "Restart=always",
   "RestartSec=5",
   "Environment=\"JUPYTER_NOTEBOOKS_DIR=" ++ config.notebooks_dir ++ "\"",
   "Environment=\"OPENAI_API_KEY=" ++ config.api_key ++ "\"",
   "Environment=\"OPENAI_BASE_URL=" ++ config.base_url ++ "\"",
   "Environment=\"ANTHROPIC_API_KEY=" ++ config.api_key ++ "\"",
   "Environment=\"ANTHROPIC_BASE_URL=" ++ config.base_url ++ "\"",
   "",
   "ExecStartPre=-/usr/bin/podman stop jupyter-lab",
   "ExecStart=/usr/bin/podman run --rm --name jupyter-lab \\",
   "  --net=host \\",
   "  -e OPENAI_API_KEY \\",
   "  -e OPENAI_BASE_URL \\",
   "  -e ANTHROPIC_API_KEY \\",
   "  -e ANTHROPIC_BASE_URL \\",
   "  -v $\x7bJUPYTER_NOTEBOOKS_DIR\x7d:/workspace/notebooks:Z \\",
   "  -v %h/.local/share/jupyter-lab/.uv-cache:/workspace/.uv-cache:Z \\",
   "  -v %h/.config/jupyter-lab:/workspace/.jupyter:Z \\",
   "  " ++ config.container.image_name,
   "",
   "ExecStop=/usr/bin/podman stop -t 10 jupyter-lab",
   "",
   "[Install]",
   "WantedBy=default.target",
   ""]

/-- The text written to `SERVICE_FILE`. -/
def serviceContent (config : FullConfig) : String :=
  String.intercalate "\n" (serviceLines config)

/-- Substring test on the underlying character lists. -/
def listIsInfixOf (needle : List Char) : List Char → Bool
  | [] => needle.isEmpty
  | c :: cs => needle.isPrefixOf (c :: cs) || listIsInfixOf needle cs

/-- Whether `hay` contains `needle` as a contiguous substring. -/
def strContainsSub (hay needle : String) : Bool := listIsInfixOf needle.data hay.data

/-- Strip a prefix from a string, when present. -/
def strDropPrefix? (s pre : String) : Option String :=
  if strStartsWith s pre then some (String.mk (s.data.drop pre.data.length)) else none

/-- Split at the first occurrence of a character: the part before it and
the part after it. -/
def breakAtChar (ch : Char) : List Char → List Char × List Char
  | [] => ([], [])
  | c :: cs =>
    if c == ch then ([], cs)
    else
      let r := breakAtChar ch cs
      (c :: r.1, r.2)

/-- Parse an `Environment="NAME=value"` line into its assignment. -/
def parseEnvLine (line : String) : Option (String × String) :=
  match strDropPrefix? line "Environment=\"" with
  | some rest =>
      let body := rest.data.dropLast
      let br := breakAtChar '=' body
      some (String.mk br.1, String.mk br.2)
  | none => none

/-- All environment assignments declared by a unit's lines. -/
def unitEnvPairs (lines : List String) : List (String × String) :=
  lines.filterMap parseEnvLine

/-- The source of a `-v src:dest` continuation line, when the line is
one. -/
def mountSourceOf (line : String) : Option String :=
  match strDropPrefix? line "  -v " with
  | some rest => some (String.mk (breakAtChar ':' rest.data).1)
  | none => none

/-- All bind-mount sources appearing in a unit's lines. -/
def mountSources (lines : List String) : List String :=
  lines.filterMap mountSourceOf

/-- Expand a mount source of the form `$\x7bNAME\x7d` using the unit's own
environment assignments (systemd variable expansion); anything else is
returned unchanged. -/
def expandMountSource (env : List (String × String)) (src : String) : String :=
  match strDropPrefix? src "$\x7b" with
  | some rest =>
      match rest.data.reverse with
      | '\x7d' :: revName =>
          match List.lookup (String.mk revName.reverse) env with
          | some v => v
          | none => src
      | _ => src
  | none => src

/-- Whether a line ends in a backslash continuation. -/
def endsWithBackslash (s : String) : Bool :=
  match s.data.reverse with
  | [] => false
  | c :: _ => c == '\\'

/-- Drop lines until the `ExecStart=` line. -/
def afterExecStart : List String → Option (List String)
  | [] => none
  | l :: ls => if strStartsWith l "ExecStart=" then some (l :: ls) else afterExecStart ls

/-- Follow backslash continuations; the first non-continued line is the
command's last argument. -/
def lastContinuation : List String → Option String
  | [] => none
  | l :: ls => if endsWithBackslash l then lastContinuation ls else some l

/-- The final argument of the rendered `ExecStart` command: the image the
service will run. -/
def execRunTarget (lines : List String) : Option String :=
  (afterExecStart lines).bind lastContinuation

/-- Strip leading spaces (continuation-line indentation). -/
def trimLeadingSpaces (s : String) : String :=
  String.mk (s.data.dropWhile (fun c => c == ' '))

/-- The fixed image tag that `build_image` both queries
(`podman images -q`, line 191) and builds (`podman build -t`, line 201),
written as a literal in the source and independent of the configuration. -/
def buildTag : String := "localhost/jupyter-lab:latest"

/-- The image-existence query `build_image` issues. -/
def buildCheckCmd : List String := ["podman", "images", "-q", buildTag]

/-- The build command `build_image` issues; the context is the script's
own directory. -/
def buildCmd (scriptDir : String) : List String :=
  ["podman", "build", "-t", buildTag, scriptDir]

/-! ## The orchestrator (`main`, C1, C4, C8, C10)

`main` is embedded as a function from the command-line flags, the observed
world (loaded configuration, live service/image state, external command
outcomes) and the interactive answers, to the list of external actions it
performs, in source order.  Durable mutations (saving the configuration,
building, creating directories, copying templates, installing the unit,
starting/stopping the service) are actions; status queries and log
display are actions too, marked non-mutating. -/

/-- An externally visible action of one `main` invocation. -/
inductive Action
  | queryStatus
  | journalctl
  | promptUser (existing : PartialConfig)
  | abortNoApiKey
  | saveConfig (c : FullConfig)
  | checkImage
  | buildImage
  | createDir (path : String)
  | copyTemplates
  | installUnit
  | daemonReload
  | startService
  | enableService
  | stopService
  deriving Repr, DecidableEq

/-- Whether the action mutates durable state (files, image, unit,
service), as opposed to querying or displaying. -/
def Action.isMutating : Action → Bool
  | .saveConfig _ => true
  | .buildImage => true
  | .createDir _ => true
  | .copyTemplates => true
  | .installUnit => true
  | .daemonReload => true
  | .startService => true
  | .enableService => true
  | .stopService => true
  | _ => false

/-- The final values the user submits at the four prompts (what each
`.ask()` returns). -/
structure PromptAnswers where
  api_key : String
  base_url : String
  model : String
  notebooks_dir : String
  deriving Repr, DecidableEq

/-- The default values pre-filled into the four prompts, computed from the
configuration handed to `prompt_config` (lines 100, 109, 120, 129). -/
structure PromptDefaults where
  api_key : String
  base_url : String
  model : String
  notebooks_dir : String
  deriving Repr, DecidableEq

/-- The prompt defaults `prompt_config` derives from `existing_config`. -/
def promptDefaults (home : String) (existing : PartialConfig) : PromptDefaults :=
  { api_key := existing.ai_api_key.getD ""
    base_url := existing.ai_base_url.getD defaultBaseUrl
    model := existing.ai_model.getD defaultModel
    notebooks_dir := existing.paths_notebooks_dir.getD (defaultNotebooksDir home) }

/-- Python `str.strip()`: remove leading and trailing whitespace. -/
def strTrim (s : String) : String :=
  String.mk (((s.data.dropWhile (fun c => c.isWhitespace)).reverse.dropWhile
    (fun c => c.isWhitespace)).reverse)

/-- `prompt_config` (lines 91-143): `none` models the `sys.exit(1)` on a
refused API key; otherwise the returned dict — prompted values for `ai`
and `paths` (`base_url` stripped), and the `container` table taken from
`existing_config` with the built-in default as fallback. -/
def prompt_config (existing : PartialConfig) (ans : PromptAnswers) :
    Option FullConfig :=
  if ans.api_key = "" then none
  else some
    { api_key := ans.api_key
      base_url := strTrim ans.base_url
      model := ans.model
      notebooks_dir := ans.notebooks_dir
      container := existing.container.getD defaultContainer }

/-- `DATA_DIR = Path.home() / ".local" / "share" / "jupyter-lab"`. -/
def dataDirPath (home : String) : String := home ++ "/.local/share/jupyter-lab"

/-- `CACHE_DIR = DATA_DIR / ".uv-cache"`. -/
def cacheDirPath (home : String) : String := dataDirPath home ++ "/.uv-cache"

/-- The world one invocation observes: the loaded configuration, the live
service and image state, and the outcomes of the external commands. -/
structure World where
  home : String
  loaded : PartialConfig
  serviceActive : Bool
  activeAfterStart : Bool
  imageExists : Bool
  buildOk : Bool
  startOk : Bool
  deriving Repr, DecidableEq

/-- `show_status` (lines 341-371): one live status query, then — when the
service is running — a best-effort log tail; display only. -/
def show_status_trace (running : Bool) : List Action :=
  .queryStatus :: (if running then [.journalctl] else [])

/-- `build_image` (lines 184-206): when not forced, query for the fixed
tag first and short-circuit with success if present; otherwise build.
Returns the actions performed and the boolean result. -/
def build_image (force imageExists buildOk : Bool) : List Action × Bool :=
  if !force then
    if imageExists then ([.checkImage], true)
    else ([.checkImage, .buildImage], buildOk)
  else ([.buildImage], buildOk)

/-- `create_directories` (lines 209-224): the config dir, the cache dir
and the notebooks dir, each created independently. -/
def create_directories_trace (home notebooks : String) : List Action :=
  [.createDir (configDirPath home), .createDir (cacheDirPath home),
   .createDir notebooks]

/-- `start_service` (lines 309-325): start, and on success also enable. -/
def start_service_trace (startOk : Bool) : List Action :=
  .startService :: (if startOk then [.enableService] else [])

/-- The tail of `main` from the `--status` check on (lines 406-437),
parameterized by the trace `tr` accumulated by the configuration step:
show status and return on `--status`; show status and return when the
service is active and no rebuild was asked; otherwise run the full
deployment (build, directories, templates, unit install and reload, stop
first if previously active, start, final status display on success). -/
def mainAfterConfig (rebuild status_only : Bool) (w : World)
    (config : PartialConfig) (tr : List Action) : List Action :=
  if status_only then tr ++ show_status_trace w.serviceActive
  else if w.serviceActive && !rebuild then
    tr ++ .queryStatus :: show_status_trace w.serviceActive
  else
    tr ++ .queryStatus :: (build_image rebuild w.imageExists w.buildOk).1
      ++ create_directories_trace w.home (config.paths_notebooks_dir.getD "")
      ++ [.copyTemplates, .installUnit, .daemonReload]
      ++ (if w.serviceActive then [.stopService] else [])
      ++ start_service_trace w.startOk
      ++ (if w.startOk then show_status_trace w.activeAfterStart else [])

/-- `main` (lines 374-437): `--stop` short-circuits; otherwise the loaded
configuration is completed (prompting from the existing configuration only
under `--reconfigure`, else from the empty dict) and saved when prompted,
then control passes to the status/deploy tail. -/
def mainRun (rebuild reconfigure status_only stop : Bool)
    (w : World) (ans : PromptAnswers) : List Action :=
  if stop then [.stopService]
  else
    let config := w.loaded
    let isComplete := (is_config_complete config).1
    if reconfigure || !isComplete then
      let arg := if reconfigure then config else emptyPartial
      match prompt_config arg ans with
      | none => [.promptUser arg, .abortNoApiKey]
      | some fc =>
          mainAfterConfig rebuild status_only w fc.toPartial
            [.promptUser arg, .saveConfig fc]
    else mainAfterConfig rebuild status_only w config []

/-- A concrete world with no configuration file: `load_config` returned
the empty dict and the service is down. -/
def w0 : World :=
  { home := "/home/u", loaded := emptyPartial, serviceActive := false,
    activeAfterStart := false, imageExists := false, buildOk := true,
    startOk := true }

/-- Concrete interactive answers accepting the prompts. -/
def ans0 : PromptAnswers :=
  { api_key := "K", base_url := "U", model := "M", notebooks_dir := "/n" }

/-- C5: completeness holds with an empty missing list exactly when the
three mandatory fields are present and non-empty; otherwise the missing
list names exactly the absent fields, and the container table plays no
role (it is not consulted at all). -/
theorem C5_is_config_complete_spec (config : PartialConfig) :
    ((is_config_complete config).1 = true ∧ (is_config_complete config).2 = [] ↔
      falsy config.ai_api_key = false ∧ falsy config.ai_base_url = false ∧
        falsy config.paths_notebooks_dir = false) ∧
    ((is_config_complete config).1 = false →
      (is_config_complete config).2 =
        (if falsy config.ai_api_key then ["AI API key"] else []) ++
        (if falsy config.ai_base_url then ["AI API base URL"] else []) ++
        (if falsy config.paths_notebooks_dir then ["Notebooks directory"] else [])) ∧
    (∀ cont cont' : Option ContainerConfig,
      is_config_complete { config with container := cont } =
        is_config_complete { config with container := cont' }) := by
  constructor
  · cases h1 : falsy config.ai_api_key <;>
      cases h2 : falsy config.ai_base_url <;>
      cases h3 : falsy config.paths_notebooks_dir <;>
      simp [is_config_complete, h1, h2, h3]
  · constructor
    · intro _
      rfl
    · intro cont cont'
      rfl

/-- C6: persist-then-load round-trip.  Saving a complete configuration and
loading it back yields a configuration equal field-for-field to the
original. -/
theorem C6_save_load_roundtrip (c : FullConfig)
    (hc : (is_config_complete c.toPartial).1 = true) :
    docToPartial (dumpConfig c) = c.toPartial := by
  rfl

/-- Witness for C6 at a concrete complete configuration. -/
theorem C6_save_load_roundtrip_witness :
    docToPartial (dumpConfig
      { api_key := "X", base_url := "U", model := "M", notebooks_dir := "/n",
        container := { image_name := "I", port := 8888 } }) =
      FullConfig.toPartial
        { api_key := "X", base_url := "U", model := "M", notebooks_dir := "/n",
          container := { image_name := "I", port := 8888 } } :=
  C6_save_load_roundtrip
    { api_key := "X", base_url := "U", model := "M", notebooks_dir := "/n",
      container := { image_name := "I", port := 8888 } }
    (by decide)

set_option maxRecDepth 4000 in
/-- C2 counterexample: `save_config` uses no temporary path and no rename
(every operation touches only the target file or its directory), and a
save of `cfgX` that fails 4 characters into the write, started over a
valid prior configuration file, leaves the target holding the half-written
fragment `"[ai]"` — not the prior valid content and not the complete new
serialization.  So a half-written file does replace a valid prior one. -/
theorem C2_save_not_atomic_counterexample :
    ((save_config_ops "/home/u" cfgX).all (fun op => op.isRename = false)) ∧
    ((save_config_ops "/home/u" cfgX).all
      (fun op => op.paths.all
        (fun p => p = configFilePath "/home/u" ∨ p = configDirPath "/home/u"))) ∧
    (storeGet
        (runOpsFail [(configFilePath "/home/u", renderDoc (dumpConfig cfgOld))]
          (save_config_ops "/home/u" cfgX) 2 4)
        (configFilePath "/home/u") = some "[ai]") ∧
    "[ai]" ≠ renderDoc (dumpConfig cfgOld) ∧
    "[ai]" ≠ renderDoc (dumpConfig cfgX) := by
  refine ⟨by decide, by decide, by decide, by decide, by decide⟩

/-- Appending to the empty string is the identity. -/
theorem str_empty_append (s : String) : "" ++ s = s := rfl

/-- C2 amended: `save_config` creates the configuration directory and then
writes the serialization directly into the target file, which is truncated
on open; no temporary path and no rename are used, so a write failing
after `n` characters leaves the `n`-character prefix of the new
serialization as the file's content (replacing the prior file), while a
completed save leaves the full serialization. -/
theorem C2_save_direct_write (home : String) (c : FullConfig)
    (fs : FileStore) (n : Nat) :
    ((save_config_ops home c).all (fun op => op.isRename = false)) = true ∧
    storeGet (runOps fs (save_config_ops home c)) (configFilePath home) =
      some (renderDoc (dumpConfig c)) ∧
    storeGet (runOpsFail fs (save_config_ops home c) 2 n) (configFilePath home) =
      some ((renderDoc (dumpConfig c)).take n) := by
  refine ⟨by simp [save_config_ops, FsOp.isRename], ?_, ?_⟩
  · simp [runOps, save_config_ops, applyOp, storeGet, storeSet, str_empty_append]
  · simp [runOpsFail, runOps, save_config_ops, applyOp, storeGet, storeSet,
      truncOp, str_empty_append]

/-- Looking up in a one-more-entry tree. -/
theorem treeGet_cons (q w : String) (t : Tree) (p : String) :
    treeGet ((q, w) :: t) p = if q == p then some w else treeGet t p := by
  simp only [treeGet, List.find?]
  by_cases h : q == p <;> simp [h]

/-- A guarded single-file copy never changes a pre-existing file. -/
theorem copyIfAbsent_preserves (tmpl cfg : Tree) (name p v : String)
    (hv : treeGet cfg p = some v) :
    treeGet (copyIfAbsent tmpl cfg name) p = some v := by
  unfold copyIfAbsent
  cases hn : treeGet cfg name with
  | some w => simp [hv]
  | none =>
    cases ht : treeGet tmpl name with
    | none => simpa using hv
    | some content =>
      rw [treeGet_cons]
      by_cases h : name == p
      · exfalso
        rw [show name = p from by simpa using h, hv] at hn
        exact Option.noConfusion hn
      · simp [h, hv]

/-- Lookup distributes over tree concatenation. -/
theorem treeGet_append (s t : Tree) (p : String) :
    treeGet (s ++ t) p = (treeGet s p).orElse (fun _ => treeGet t p) := by
  induction s with
  | nil => simp [treeGet]
  | cons e s ih =>
    obtain ⟨q, w⟩ := e
    rw [List.cons_append, treeGet_cons, treeGet_cons]
    by_cases h : q == p <;> simp [h, ih]

/-- A path outside the `ipython` subtree is absent from the filtered
template subtree. -/
theorem treeGet_filter_inIpython_none (tmpl : Tree) (p : String)
    (hp : strStartsWith p "ipython/" = false) :
    treeGet (tmpl.filter inIpython) p = none := by
  induction tmpl with
  | nil => rfl
  | cons e t ih =>
    obtain ⟨q, w⟩ := e
    by_cases hq : inIpython (q, w)
    · rw [List.filter_cons_of_pos hq, treeGet_cons]
      by_cases h : q == p
      · exfalso
        rw [show q = p from by simpa using h] at hq
        simp only [inIpython] at hq
        rw [hq] at hp
        exact Bool.noConfusion hp
      · simp [h, ih]
    · rw [List.filter_cons_of_neg hq]
      exact ih

/-- If no entry is in the `ipython` subtree, the filtered subtree is
empty. -/
theorem filter_inIpython_eq_nil (tmpl : Tree) (h : tmpl.any inIpython = false) :
    tmpl.filter inIpython = [] := by
  induction tmpl with
  | nil => rfl
  | cons e t ih =>
    simp only [List.any_cons, Bool.or_eq_false_iff] at h
    rw [List.filter_cons_of_neg (by simp [h.1]), ih h.2]

/-- C3 counterexample: a pre-existing user-edited file at
`ipython/profile_default/startup/00-load-jupyter-ai.py` is overwritten by
the template-copy step with the template's content, so the step does not
leave every pre-existing file unchanged. -/
theorem C3_copy_overwrites_counterexample :
    treeGet
      (copy_jupyter_config_fs
        [("jupyter_lab_config.py", "tmpl-lab"),
         ("ipython/profile_default/startup/00-load-jupyter-ai.py", "tmpl-startup")]
        [("ipython/profile_default/startup/00-load-jupyter-ai.py", "user-edit")])
      "ipython/profile_default/startup/00-load-jupyter-ai.py" =
      some "tmpl-startup" ∧
    some "tmpl-startup" ≠ some "user-edit" := by
  exact ⟨by decide, by decide⟩

/-- C3 amended: the template-copy step never deletes a pre-existing file
and leaves every pre-existing file outside the template's `ipython`
subtree unchanged (single template files are copied only when the
destination is absent); however, a pre-existing file whose path matches a
template file under `ipython/` is overwritten by the directory merge with
that template file's content. -/
theorem C3_copy_preserves_except_ipython (tmpl cfg : Tree) (p v : String)
    (hv : treeGet cfg p = some v) :
    treeGet (copy_jupyter_config_fs tmpl cfg) p =
      (if strStartsWith p "ipython/" then
        (treeGet (tmpl.filter inIpython) p).orElse (fun _ => some v)
      else some v) := by
  unfold copy_jupyter_config_fs
  have h2 : treeGet (copyIfAbsent tmpl
      (copyIfAbsent tmpl cfg "jupyter_lab_config.py")
      "ipython_kernel_config.py") p = some v :=
    copyIfAbsent_preserves _ _ _ _ _
      (copyIfAbsent_preserves _ _ _ _ _ hv)
  by_cases ha : tmpl.any inIpython
  · rw [if_pos ha, treeGet_append, h2]
    by_cases hp : strStartsWith p "ipython/"
    · rw [if_pos hp]
    · rw [if_neg hp, treeGet_filter_inIpython_none tmpl p (by simpa using hp)]
      rfl
  · rw [if_neg ha, h2]
    by_cases hp : strStartsWith p "ipython/"
    · rw [if_pos hp,
        filter_inIpython_eq_nil tmpl (by simpa using ha)]
      rfl
    · rw [if_neg hp]

/-- Witness for C3 amended at concrete trees: a pre-existing file outside
the `ipython` subtree survives with its content. -/
theorem C3_copy_preserves_witness :
    treeGet
      (copy_jupyter_config_fs
        [("jupyter_lab_config.py", "tmpl-lab")]
        [("jupyter_lab_config.py", "user-lab")])
      "jupyter_lab_config.py" =
      (if strStartsWith "jupyter_lab_config.py" "ipython/" then
        (treeGet (List.filter inIpython [("jupyter_lab_config.py", "tmpl-lab")])
            "jupyter_lab_config.py").orElse (fun _ => some "user-lab")
      else some "user-lab") :=
  C3_copy_preserves_except_ipython
    [("jupyter_lab_config.py", "tmpl-lab")]
    [("jupyter_lab_config.py", "user-lab")]
    "jupyter_lab_config.py" "user-lab" (by decide)

set_option maxRecDepth 8000 in
/-- C7: for the configuration `cfgX` (key `X`, URL `U`, model `M`,
notebooks `/n`, image `I`, port 8888), the rendered unit text contains the
four credential environment assignments with key `X` and base URL `U`;
the `ExecStart` command's final argument (its run target) is `I`; and the
unit's first bind-mount source, expanded through the unit's own
environment assignments, contains `/n`. -/
theorem C7_unit_render_credentials_target_mount :
    strContainsSub (serviceContent cfgX) "Environment=\"OPENAI_API_KEY=X\"" = true ∧
    strContainsSub (serviceContent cfgX) "Environment=\"OPENAI_BASE_URL=U\"" = true ∧
    strContainsSub (serviceContent cfgX) "Environment=\"ANTHROPIC_API_KEY=X\"" = true ∧
    strContainsSub (serviceContent cfgX) "Environment=\"ANTHROPIC_BASE_URL=U\"" = true ∧
    (execRunTarget (serviceLines cfgX)).map trimLeadingSpaces = some "I" ∧
    (mountSources (serviceLines cfgX)).any
      (fun src => strContainsSub
        (expandMountSource (unitEnvPairs (serviceLines cfgX)) src) "/n") = true := by
  refine ⟨by decide, by decide, by decide, by decide, by decide, by decide⟩

/-- C8: with `force` the build step always runs, even when the image
exists; without `force` and with an existing image, `build_image` performs
only the existence query, invokes no build, and reports success. -/
theorem C8_build_image_force_semantics (imageExists buildOk : Bool) :
    Action.buildImage ∈ (build_image true imageExists buildOk).1 ∧
    (build_image false true buildOk).1 = [Action.checkImage] ∧
    Action.buildImage ∉ (build_image false true buildOk).1 ∧
    (build_image false true buildOk).2 = true := by
  refine ⟨?_, rfl, ?_, rfl⟩ <;> simp [build_image]

/-- `String.append` acts as append on the character data. -/
theorem string_data_append (a b : String) : (a ++ b).data = a.data ++ b.data := rfl

/-- A two-space-indented line whose payload contains no backslash is not a
continuation line. -/
theorem endsWithBackslash_indent (s : String) (h : '\\' ∉ s.data) :
    endsWithBackslash ("  " ++ s) = false := by
  unfold endsWithBackslash
  rw [string_data_append, List.reverse_append]
  cases hs : s.data.reverse with
  | nil => rfl
  | cons c rest =>
      have hc : c ∈ s.data := by
        rw [← List.mem_reverse, hs]
        exact List.mem_cons_self _ _
      have hne : ¬ c = '\\' := fun he => h (he ▸ hc)
      simp [hne]

/-- Stripping the two-space indentation recovers a payload that contains
no space. -/
theorem trimLeadingSpaces_indent (s : String) (h : ' ' ∉ s.data) :
    trimLeadingSpaces ("  " ++ s) = s := by
  obtain ⟨l⟩ := s
  unfold trimLeadingSpaces
  rw [string_data_append]
  show String.mk (List.dropWhile _ l) = ⟨l⟩
  cases l with
  | nil => rfl
  | cons c cs =>
      have hne : ¬ (c == ' ') = true := by
        simp only [beq_iff_eq]
        intro he
        exact h (by simp [he])
      simp [List.dropWhile, hne]

/-- A continuation line passes control to the remaining lines. -/
theorem lastContinuation_cons_cont (l : String) (ls : List String)
    (h : endsWithBackslash l = true) :
    lastContinuation (l :: ls) = lastContinuation ls := by
  have he : lastContinuation (l :: ls) =
      if endsWithBackslash l = true then lastContinuation ls else some l := rfl
  rw [he, h]
  simp

/-- A non-continuation line is the command's final argument. -/
theorem lastContinuation_cons_stop (l : String) (ls : List String)
    (h : endsWithBackslash l = false) :
    lastContinuation (l :: ls) = some l := by
  have he : lastContinuation (l :: ls) =
      if endsWithBackslash l = true then lastContinuation ls else some l := rfl
  rw [he, h]
  simp

/-- The run target parsed out of the rendered unit is the two-space
indented image name, for every image name free of backslashes. -/
theorem execRunTarget_serviceLines (c : FullConfig)
    (h : '\\' ∉ c.container.image_name.data) :
    execRunTarget (serviceLines c) = some ("  " ++ c.container.image_name) := by
  have hend := endsWithBackslash_indent c.container.image_name h
  have h1 : afterExecStart (serviceLines c) = some
      ("ExecStart=/usr/bin/podman run --rm --name jupyter-lab \\" ::
       "  --net=host \\" ::
       "  -e OPENAI_API_KEY \\" ::
       "  -e OPENAI_BASE_URL \\" ::
       "  -e ANTHROPIC_API_KEY \\" ::
       "  -e ANTHROPIC_BASE_URL \\" ::
       "  -v $\x7bJUPYTER_NOTEBOOKS_DIR\x7d:/workspace/notebooks:Z \\" ::
       "  -v %h/.local/share/jupyter-lab/.uv-cache:/workspace/.uv-cache:Z \\" ::
       "  -v %h/.config/jupyter-lab:/workspace/.jupyter:Z \\" ::
       ("  " ++ c.container.image_name) ::
       "" ::
       "ExecStop=/usr/bin/podman stop -t 10 jupyter-lab" ::
       "" :: "[Install]" :: "WantedBy=default.target" :: "" :: []) := rfl
  show (afterExecStart (serviceLines c)).bind lastContinuation = _
  rw [h1]
  show lastContinuation _ = _
  rw [lastContinuation_cons_cont _ _ (by decide),
    lastContinuation_cons_cont _ _ (by decide),
    lastContinuation_cons_cont _ _ (by decide),
    lastContinuation_cons_cont _ _ (by decide),
    lastContinuation_cons_cont _ _ (by decide),
    lastContinuation_cons_cont _ _ (by decide),
    lastContinuation_cons_cont _ _ (by decide),
    lastContinuation_cons_cont _ _ (by decide),
    lastContinuation_cons_cont _ _ (by decide),
    lastContinuation_cons_stop _ _ hend]

/-- C9: the image-existence query and the build command both carry the
fixed literal tag `localhost/jupyter-lab:latest` — they are not functions
of the configuration — while the run target parsed from the rendered unit
is the configuration's `image_name`; so whenever `image_name` differs from
the literal, the image checked and built is not the image the service is
configured to run. -/
theorem C9_checked_tag_differs_from_run_target (c : FullConfig)
    (scriptDir : String)
    (hne : c.container.image_name ≠ "localhost/jupyter-lab:latest")
    (hbs : '\\' ∉ c.container.image_name.data)
    (hsp : ' ' ∉ c.container.image_name.data) :
    buildCheckCmd = ["podman", "images", "-q", "localhost/jupyter-lab:latest"] ∧
    buildCmd scriptDir =
      ["podman", "build", "-t", "localhost/jupyter-lab:latest", scriptDir] ∧
    (execRunTarget (serviceLines c)).map trimLeadingSpaces =
      some c.container.image_name ∧
    (execRunTarget (serviceLines c)).map trimLeadingSpaces ≠
      some "localhost/jupyter-lab:latest" := by
  have hr : (execRunTarget (serviceLines c)).map trimLeadingSpaces =
      some c.container.image_name := by
    rw [execRunTarget_serviceLines c hbs]
    simp [trimLeadingSpaces_indent _ hsp]
  refine ⟨rfl, rfl, hr, ?_⟩
  rw [hr]
  simp [hne]

/-- Witness for C9 at the configuration `cfgX` (image name `I`). -/
theorem C9_checked_tag_differs_witness :
    buildCheckCmd = ["podman", "images", "-q", "localhost/jupyter-lab:latest"] ∧
    buildCmd "/opt/mango-jupyter" =
      ["podman", "build", "-t", "localhost/jupyter-lab:latest",
       "/opt/mango-jupyter"] ∧
    (execRunTarget (serviceLines cfgX)).map trimLeadingSpaces = some "I" ∧
    (execRunTarget (serviceLines cfgX)).map trimLeadingSpaces ≠
      some "localhost/jupyter-lab:latest" :=
  C9_checked_tag_differs_from_run_target cfgX "/opt/mango-jupyter"
    (by decide) (by decide) (by decide)

/-- C1: a default invocation (no flags) with a complete configuration and
an already-active service performs exactly one liveness query followed by
the status display (a second query plus the log tail) — no build, no
image check, no directory creation, no template copy, no unit install, no
reload, no save, and no start or stop; every action is non-mutating. -/
theorem C1_default_invocation_pure_status (w : World) (ans : PromptAnswers)
    (hc : (is_config_complete w.loaded).1 = true)
    (ha : w.serviceActive = true) :
    mainRun false false false false w ans =
      [Action.queryStatus, Action.queryStatus, Action.journalctl] ∧
    (mainRun false false false false w ans).all
      (fun a => !a.isMutating) = true := by
  have h : mainRun false false false false w ans =
      [Action.queryStatus, Action.queryStatus, Action.journalctl] := by
    simp [mainRun, hc, mainAfterConfig, ha, show_status_trace]
  exact ⟨h, by rw [h]; decide⟩

/-- Witness for C1: a concrete world with a complete configuration and an
active service. -/
theorem C1_default_invocation_pure_status_witness :
    mainRun false false false false
      { home := "/home/u", loaded := cfgX.toPartial, serviceActive := true,
        activeAfterStart := true, imageExists := true, buildOk := true,
        startOk := true }
      { api_key := "K", base_url := "U", model := "M", notebooks_dir := "/n" } =
      [Action.queryStatus, Action.queryStatus, Action.journalctl] ∧
    (mainRun false false false false
      { home := "/home/u", loaded := cfgX.toPartial, serviceActive := true,
        activeAfterStart := true, imageExists := true, buildOk := true,
        startOk := true }
      { api_key := "K", base_url := "U", model := "M", notebooks_dir := "/n" }).all
      (fun a => !a.isMutating) = true :=
  C1_default_invocation_pure_status _ _ (by decide) (by decide)

/-- C4 counterexample: a `--status` run over an absent configuration file
prompts and then saves the configuration — a durable mutation — before
displaying status, so `--status` does not leave every starting state
unmutated. -/
theorem C4_status_run_mutates_counterexample :
    Action.saveConfig
        { api_key := "K", base_url := "U", model := "M", notebooks_dir := "/n",
          container := defaultContainer } ∈
      mainRun false false true false w0 ans0 ∧
    (mainRun false false true false w0 ans0).any (fun a => a.isMutating) = true := by
  exact ⟨by decide, by decide⟩

/-- C4 amended: a `--status` run mutates nothing when the loaded
configuration is already complete (and `--reconfigure` is not given): it
performs only the status query and, when the service is running, the log
tail.  When the loaded configuration is incomplete, the run first prompts
for and saves a configuration, then displays status. -/
theorem C4_status_no_mutation_when_complete (rebuild : Bool) (w : World)
    (ans : PromptAnswers)
    (hc : (is_config_complete w.loaded).1 = true) :
    mainRun rebuild false true false w ans = show_status_trace w.serviceActive ∧
    (mainRun rebuild false true false w ans).all
      (fun a => !a.isMutating) = true := by
  have h : mainRun rebuild false true false w ans =
      show_status_trace w.serviceActive := by
    simp [mainRun, hc, mainAfterConfig]
  refine ⟨h, ?_⟩
  rw [h]
  cases hw : w.serviceActive <;> decide

/-- Witness for C4 amended: a concrete `--status` run with a complete
configuration performs only the query and log-tail actions. -/
theorem C4_status_no_mutation_witness :
    mainRun false false true false
      { home := "/home/u", loaded := cfgX.toPartial, serviceActive := true,
        activeAfterStart := true, imageExists := true, buildOk := true,
        startOk := true } ans0 =
      show_status_trace true ∧
    (mainRun false false true false
      { home := "/home/u", loaded := cfgX.toPartial, serviceActive := true,
        activeAfterStart := true, imageExists := true, buildOk := true,
        startOk := true } ans0).all (fun a => !a.isMutating) = true :=
  C4_status_no_mutation_when_complete false _ ans0 (by decide)

/-- Every branch of the post-configuration tail extends the accumulated
trace on the right. -/
theorem mainAfterConfig_append (rebuild status_only : Bool) (w : World)
    (config : PartialConfig) (tr : List Action) :
    ∃ x, mainAfterConfig rebuild status_only w config tr = tr ++ x := by
  unfold mainAfterConfig
  split_ifs <;>
    first
      | exact ⟨_, rfl⟩
      | (simp only [List.append_assoc, List.cons_append]; exact ⟨_, rfl⟩)

/-- Taking two of a list that starts with two given elements. -/
theorem take_two_cons (a b : Action) (x : List Action) :
    (a :: b :: x).take 2 = [a, b] := rfl

/-- C10: when the loaded configuration is incomplete and `--reconfigure`
was not given, the prompting step receives the empty configuration, not
the stored partial one: the run begins with a prompt over the empty dict
followed by a save whose `container` table is exactly the built-in
default (regardless of any stored customization), and the prompt defaults
derived from the empty dict are the built-in defaults, independent of the
stored values. -/
theorem C10_incomplete_prompts_from_empty (rebuild status_only : Bool)
    (w : World) (ans : PromptAnswers)
    (hc : (is_config_complete w.loaded).1 = false)
    (hk : ans.api_key ≠ "") :
    (mainRun rebuild false status_only false w ans).take 2 =
      [Action.promptUser emptyPartial,
       Action.saveConfig
         { api_key := ans.api_key, base_url := strTrim ans.base_url,
           model := ans.model, notebooks_dir := ans.notebooks_dir,
           container := defaultContainer }] ∧
    promptDefaults w.home emptyPartial =
      { api_key := "", base_url := defaultBaseUrl, model := defaultModel,
        notebooks_dir := defaultNotebooksDir w.home } := by
  refine ⟨?_, rfl⟩
  have hm : mainRun rebuild false status_only false w ans =
      mainAfterConfig rebuild status_only w
        (FullConfig.toPartial
          { api_key := ans.api_key, base_url := strTrim ans.base_url,
            model := ans.model, notebooks_dir := ans.notebooks_dir,
            container := defaultContainer })
        [Action.promptUser emptyPartial,
         Action.saveConfig
           { api_key := ans.api_key, base_url := strTrim ans.base_url,
             model := ans.model, notebooks_dir := ans.notebooks_dir,
             container := defaultContainer }] := by
    simp [mainRun, hc, prompt_config, hk, emptyPartial, defaultContainer]
  obtain ⟨x, hx⟩ := mainAfterConfig_append rebuild status_only w
    (FullConfig.toPartial
      { api_key := ans.api_key, base_url := strTrim ans.base_url,
        model := ans.model, notebooks_dir := ans.notebooks_dir,
        container := defaultContainer })
    [Action.promptUser emptyPartial,
     Action.saveConfig
       { api_key := ans.api_key, base_url := strTrim ans.base_url,
         model := ans.model, notebooks_dir := ans.notebooks_dir,
         container := defaultContainer }]
  rw [hm, hx]
  exact take_two_cons _ _ _

/-- Witness for C10: a stored partial configuration with a customized
container table but no API key; the run prompts over the empty dict and
saves the default container table, dropping the customization. -/
theorem C10_incomplete_prompts_from_empty_witness :
    (mainRun false false false false
      { home := "/home/u",
        loaded :=
          { ai_api_key := none, ai_base_url := some "https://stored.example",
            ai_model := some "stored-model", paths_notebooks_dir := some "/kept",
            container := some { image_name := "custom/image:v2", port := 9999 } },
        serviceActive := false, activeAfterStart := true, imageExists := false,
        buildOk := true, startOk := true } ans0).take 2 =
      [Action.promptUser emptyPartial,
       Action.saveConfig
         { api_key := "K", base_url := strTrim "U", model := "M",
           notebooks_dir := "/n", container := defaultContainer }] ∧
    promptDefaults "/home/u" emptyPartial =
      { api_key := "", base_url := defaultBaseUrl, model := defaultModel,
        notebooks_dir := defaultNotebooksDir "/home/u" } :=
  C10_incomplete_prompts_from_empty false false
    { home := "/home/u",
      loaded :=
        { ai_api_key := none, ai_base_url := some "https://stored.example",
          ai_model := some "stored-model", paths_notebooks_dir := some "/kept",
          container := some { image_name := "custom/image:v2", port := 9999 } },
      serviceActive := false, activeAfterStart := true, imageExists := false,
      buildOk := true, startOk := true } ans0
    (by decide) (by decide)

end Deploy
